import Mathlib

/-!
Verification of the document-grounded chat assistant (`chat/views.py`,
`chat/models.py`).  Python strings are modelled as Lean `String`s, with the
Python operations (`len`, slicing, `strip`, `lower`) embedded over the
underlying character list.  The per-session document cache
(`request.session['chat_documents']`, a dict from chat id to a list of
document entries) is modelled as an association list.  Database tables
(`Chat`, `ChatMessage`, `Document`) are modelled as lists of records in
creation order.
-/

namespace CloneBot

/-- Python `len(s)`: number of characters. -/
def pyLen (s : String) : Nat := s.data.length

/-- Python `s[:n]`. -/
def pyTake (s : String) (n : Nat) : String := String.mk (s.data.take n)

/-- Python `s.strip()`: drop leading and trailing whitespace. -/
def pyStrip (s : String) : String :=
  String.mk (((s.data.dropWhile Char.isWhitespace).reverse.dropWhile Char.isWhitespace).reverse)

/-- Python `s.lower()`. -/
def pyLower (s : String) : String := String.mk (s.data.map Char.toLower)

/-- One entry of the session document cache: the dict
`{'id': ..., 'filename': ..., 'text': ...}` built in `upload_document`. -/
structure DocEntry where
  id : Nat
  filename : String
  text : String
deriving DecidableEq

/-- `request.session['chat_documents']`: dict from chat id to active documents. -/
abbrev ChatDocuments := List (String × List DocEntry)

/-- The fallback key used by `upload_document` when no `chat_id` is supplied. -/
def defaultKey : String := "default"

/-- Dict read `chat_documents.get(key, [])`. -/
def lookupKey (cd : ChatDocuments) (k : String) : List DocEntry :=
  match cd.find? (fun p => decide (p.1 = k)) with
  | some p => p.2
  | none => []

/-- Dict write `chat_documents[key] = v`. -/
def setKey (cd : ChatDocuments) (k : String) (v : List DocEntry) : ChatDocuments :=
  if cd.any (fun p => decide (p.1 = k)) then
    cd.map (fun p => if p.1 = k then (k, v) else p)
  else
    cd ++ [(k, v)]

/-- The literal marker appended when text is cut at a length limit
(`"\n\n[Document truncated for length...]"`, used by `upload_document`
at 50000 characters and by `ask_document` at 8000 characters). -/
def lengthTruncMarker : String := "\n\n[Document truncated for length...]"

/-- The literal marker appended by the `chat` view when a cached document is
cut to 15000 characters for one call. -/
def continuesTruncMarker : String := "\n\n[Document content continues but was truncated...]"

/-- `upload_document`: truncate extracted text to 50000 characters before
caching, appending the literal marker when cut. -/
def truncateForCache (text : String) : String :=
  if 50000 < pyLen text then pyTake text 50000 ++ lengthTruncMarker else text

/-- `upload_document`: keep only the 2 most recent documents
(`active_documents[-2:]` when the list exceeds 2 entries). -/
def keepLast2 (l : List DocEntry) : List DocEntry :=
  if 2 < l.length then l.drop (l.length - 2) else l

/-- The storage key of an upload: the chat id when truthy, else `'default'`. -/
def storageKey (chatId : String) : String :=
  if chatId ≠ "" then chatId else defaultKey

/-- The session-cache update of `upload_document` (views.py lines 516-545):
read the current list for the chat id (empty when no chat id is supplied),
drop entries with the same document id, append the new entry, cap at the
last 2, and store under the chat id or the default key. -/
def upsertDocument (cd : ChatDocuments) (chatId : String) (doc : DocEntry) : ChatDocuments :=
  let activeDocuments := if chatId ≠ "" then lookupKey cd chatId else []
  let activeDocuments := activeDocuments.filter (fun d => decide (d.id ≠ doc.id))
  let activeDocuments := keepLast2 (activeDocuments ++ [doc])
  setKey cd (storageKey chatId) activeDocuments

/-- The session part of `upload_document` applied to already-extracted text:
a no-op returning length 0 when the text is empty or whitespace, otherwise
the upsert of the truncated text, returning the retained length. -/
def uploadSession (cd : ChatDocuments) (chatId : String) (docId : Nat)
    (filename text : String) : ChatDocuments × Nat :=
  if pyStrip text ≠ "" then
    let t := truncateForCache text
    (upsertDocument cd chatId (DocEntry.mk docId filename t), pyLen t)
  else
    (cd, 0)

/-- `delete_document` (views.py lines 983-992): for every key of the session
dict drop the deleted document's entries; a key whose list becomes empty is
removed from the dict. -/
def purgeDocument (cd : ChatDocuments) (docId : Nat) : ChatDocuments :=
  cd.filterMap (fun p =>
    let l := p.2.filter (fun d => decide (d.id ≠ docId))
    if l.isEmpty then none else some (p.1, l))

theorem lookupKey_setKey_self (cd : ChatDocuments) (k : String) (v : List DocEntry) :
    lookupKey (setKey cd k v) k = v := by
  induction cd with
  | nil => simp [setKey, lookupKey]
  | cons p t ih =>
    by_cases hp : p.1 = k
    · simp [setKey, lookupKey, hp]
    · by_cases ht : t.any (fun q => decide (q.1 = k))
      · have ih' := ih
        simp [setKey, ht] at ih'
        simp [setKey, lookupKey, hp, ht]
        simpa [lookupKey] using ih'
      · have ih' := ih
        simp [setKey, ht] at ih'
        simp [setKey, lookupKey, hp, ht]
        simpa [lookupKey] using ih'

theorem keepLast2_eq_drop (l : List DocEntry) : keepLast2 l = l.drop (l.length - 2) := by
  unfold keepLast2
  by_cases h : 2 < l.length
  · simp [h]
  · have h2 : l.length - 2 = 0 := by omega
    simp [h, h2]

theorem keepLast2_append_one (l : List DocEntry) (e : DocEntry) :
    keepLast2 (l ++ [e]) = l.drop (l.length - 1) ++ [e] := by
  rw [keepLast2_eq_drop]
  have h1 : (l ++ [e]).length - 2 = l.length - 1 := by simp
  rw [h1, List.drop_append_of_le_length (by omega)]

theorem keepLast2_append_two (s : List DocEntry) (a b : DocEntry) :
    keepLast2 (s ++ [a, b]) = [a, b] := by
  rw [keepLast2_eq_drop]
  have h1 : (s ++ [a, b]).length - 2 = s.length := by simp
  rw [h1, List.drop_append_of_le_length (by omega), List.drop_length]
  rfl

theorem upsert_lookup (cd : ChatDocuments) (chatId : String) (doc : DocEntry) :
    lookupKey (upsertDocument cd chatId doc) (storageKey chatId) =
      keepLast2 (((if chatId ≠ "" then lookupKey cd chatId else []).filter
        (fun d => decide (d.id ≠ doc.id))) ++ [doc]) := by
  simp [upsertDocument, lookupKey_setKey_self]

theorem keepLast2_singleton (e : DocEntry) : keepLast2 [e] = [e] := by
  simp [keepLast2]

theorem mem_keepLast2_append_one {l : List DocEntry} {e x : DocEntry}
    (hx : x ∈ keepLast2 (l ++ [e])) : x ∈ l ∨ x = e := by
  rw [keepLast2_append_one] at hx
  rcases List.mem_append.mp hx with h | h
  · exact Or.inl (List.mem_of_mem_drop h)
  · exact Or.inr (List.mem_singleton.mp h)

theorem length_keepLast2 (l : List DocEntry) : (keepLast2 l).length ≤ 2 := by
  rw [keepLast2_eq_drop, List.length_drop]
  omega

theorem countP_keepLast2_filter_append (base : List DocEntry) (doc : DocEntry) :
    (keepLast2 ((base.filter (fun d => decide (d.id ≠ doc.id))) ++ [doc])).countP
      (fun d => decide (d.id = doc.id)) = 1 := by
  rw [keepLast2_append_one, List.countP_append]
  have hzero : ((base.filter (fun d => decide (d.id ≠ doc.id))).drop
      ((base.filter (fun d => decide (d.id ≠ doc.id))).length - 1)).countP
      (fun d => decide (d.id = doc.id)) = 0 := by
    rw [List.countP_eq_zero]
    intro a ha
    have hmem := List.mem_of_mem_drop ha
    have := (List.mem_filter.mp hmem).2
    simp at this ⊢
    exact this
  rw [hzero]
  simp [List.countP_cons]

/-- C2 (amended): an upload with non-empty extracted text leaves the target
key's cache list with the uploaded id exactly once and length at most 2; a
sequence of 3 uploads of distinct documents with the same non-empty chat id
leaves exactly the last 2, in upload order.  (Uploads with no chat id
replace the default-key list instead, see the counterexample.) -/
theorem upload_cache_invariants (cd : ChatDocuments) (cid0 cid : String)
    (d0 d1 d2 d3 : DocEntry) (hcid : cid ≠ "")
    (h12 : d1.id ≠ d2.id) (h13 : d1.id ≠ d3.id) (h23 : d2.id ≠ d3.id) :
    (lookupKey (upsertDocument cd cid0 d0) (storageKey cid0)).countP
        (fun d => decide (d.id = d0.id)) = 1 ∧
    (lookupKey (upsertDocument cd cid0 d0) (storageKey cid0)).length ≤ 2 ∧
    lookupKey (upsertDocument (upsertDocument (upsertDocument cd cid d1) cid d2) cid d3) cid
      = [d2, d3] := by
  refine ⟨?_, ?_, ?_⟩
  · rw [upsert_lookup]
    exact countP_keepLast2_filter_append _ d0
  · rw [upsert_lookup]
    exact length_keepLast2 _
  · have hsk : storageKey cid = cid := by simp [storageKey, hcid]
    have s1 := upsert_lookup cd cid d1
    rw [hsk, if_pos hcid] at s1
    have s2 := upsert_lookup (upsertDocument cd cid d1) cid d2
    rw [hsk, if_pos hcid, s1] at s2
    have hL2 : lookupKey (upsertDocument (upsertDocument cd cid d1) cid d2) cid = [d1, d2] := by
      rw [s2,
        keepLast2_append_one (List.filter (fun d => decide (d.id ≠ d1.id)) (lookupKey cd cid)) d1,
        List.filter_append]
      have hd1 : List.filter (fun d => decide (d.id ≠ d2.id)) [d1] = [d1] := by
        simp [h12]
      rw [hd1, List.append_assoc]
      exact keepLast2_append_two _ d1 d2
    have s3 := upsert_lookup (upsertDocument (upsertDocument cd cid d1) cid d2) cid d3
    rw [hsk, if_pos hcid, hL2] at s3
    rw [s3]
    have hfil : List.filter (fun d => decide (d.id ≠ d3.id)) [d1, d2] = [d1, d2] := by
      simp [h13, h23]
    rw [hfil]
    exact keepLast2_append_two [d1] d2 d3

/-- Sample cache entries used by concrete instances below. -/
def e1 : DocEntry := DocEntry.mk 1 "a.txt" "alpha"

def e2 : DocEntry := DocEntry.mk 2 "b.txt" "beta"

def e3 : DocEntry := DocEntry.mk 3 "c.txt" "gamma"

def cacheKeyA : String := "chat-A"

theorem upload_cache_invariants_witness :
    (cacheKeyA ≠ "" ∧ e1.id ≠ e2.id ∧ e1.id ≠ e3.id ∧ e2.id ≠ e3.id) ∧
    ((lookupKey (upsertDocument [] cacheKeyA e1) (storageKey cacheKeyA)).countP
        (fun d => decide (d.id = e1.id)) = 1 ∧
      (lookupKey (upsertDocument [] cacheKeyA e1) (storageKey cacheKeyA)).length ≤ 2 ∧
      lookupKey (upsertDocument (upsertDocument (upsertDocument [] cacheKeyA e1) cacheKeyA e2)
          cacheKeyA e3) cacheKeyA = [e2, e3]) :=
  ⟨⟨by decide, by decide, by decide, by decide⟩,
    upload_cache_invariants [] cacheKeyA cacheKeyA e1 e1 e2 e3
      (by decide) (by decide) (by decide) (by decide)⟩

/-- C2 counterexample: three uploads with no chat id all target the default
key, but each replaces the list, so only the last 1 document remains — not
the last 2 as the claim states for "the same conversation key". -/
theorem upload_default_key_three_uploads_keep_one :
    lookupKey (upsertDocument (upsertDocument (upsertDocument [] "" e1) "" e2) "" e3)
        defaultKey = [e3] ∧
    lookupKey (upsertDocument (upsertDocument (upsertDocument [] "" e1) "" e2) "" e3)
        defaultKey ≠ [e2, e3] := by
  constructor
  · decide
  · decide

/-- C3 (amended): the storage key is the chat id when supplied and the fixed
default key otherwise; with a chat id, entries with the same document id are
removed from that key's existing list before the new entry is appended (then
capped at 2); with no chat id the upsert starts from an empty list, so the
new entry becomes the sole entry under the default key. -/
theorem upsert_key_selection_and_dedupe (cd : ChatDocuments) (cid : String)
    (doc : DocEntry) (h : cid ≠ "") :
    storageKey cid = cid ∧
    storageKey "" = defaultKey ∧
    lookupKey (upsertDocument cd cid doc) cid =
      keepLast2 ((lookupKey cd cid).filter (fun d => decide (d.id ≠ doc.id)) ++ [doc]) ∧
    lookupKey (upsertDocument cd "" doc) defaultKey = [doc] := by
  refine ⟨by simp [storageKey, h], by simp [storageKey], ?_, ?_⟩
  · have s := upsert_lookup cd cid doc
    rw [if_pos h] at s
    simpa [storageKey, h] using s
  · have s := upsert_lookup cd "" doc
    simp [storageKey] at s
    rw [s]
    exact keepLast2_singleton doc

theorem upsert_key_selection_and_dedupe_witness :
    cacheKeyA ≠ "" ∧
    (storageKey cacheKeyA = cacheKeyA ∧
      storageKey "" = defaultKey ∧
      lookupKey (upsertDocument [(cacheKeyA, [e1])] cacheKeyA e2) cacheKeyA =
        keepLast2 ((lookupKey [(cacheKeyA, [e1])] cacheKeyA).filter
          (fun d => decide (d.id ≠ e2.id)) ++ [e2]) ∧
      lookupKey (upsertDocument [(cacheKeyA, [e1])] "" e2) defaultKey = [e2]) :=
  ⟨by decide, upsert_key_selection_and_dedupe [(cacheKeyA, [e1])] cacheKeyA e2 (by decide)⟩

/-- C3 counterexample: with entries already cached under the default key, an
upsert with no chat id replaces the default-key list with just the new
entry instead of appending to it. -/
theorem upsert_no_chat_id_replaces_default_list :
    lookupKey (upsertDocument [(defaultKey, [e1])] "" e2) defaultKey = [e2] ∧
    lookupKey (upsertDocument [(defaultKey, [e1])] "" e2) defaultKey ≠ [e1, e2] := by
  constructor
  · decide
  · decide

/-- One conversation turn `{role, content}` (history entries and API messages). -/
structure Turn where
  role : String
  content : String
deriving DecidableEq

/-- Row of the `Chat` model: `chat_id`, globally unique `session_id`, owner,
title, and the embedded `conversation_history` JSON list. -/
structure Conversation where
  chat_id : String
  session_id : Nat
  owner : Nat
  title : String
  conversation_history : List Turn
deriving DecidableEq

/-- Row of the flattened `ChatMessage` table; the chat foreign key is modelled
by the unique `(chat_id, owner)` pair, rows kept in creation order. -/
structure MsgRecord where
  chat_id : String
  owner : Nat
  role : String
  content : String
deriving DecidableEq

/-- Row of the `Document` model (a `null` `extracted_text` and an empty one
are both falsy in the views, so both are modelled as `""`). -/
structure DocumentRec where
  id : Nat
  owner : Nat
  filename : String
  extracted_text : String
deriving DecidableEq

/-- The three database tables, each in creation order. -/
structure Db where
  chats : List Conversation
  msgs : List MsgRecord
  docs : List DocumentRec
deriving DecidableEq

/-- Session document cache plus database: the state a view reads and writes. -/
structure ServerState where
  session : ChatDocuments
  db : Db
deriving DecidableEq

/-- The largest `session_id` in the `Chat` table (0 when empty): the
`order_by('-session_id').first()` query of `Chat.get_next_session_id`. -/
def maxSessionId (db : Db) : Nat :=
  db.chats.foldl (fun m c => max m c.session_id) 0

/-- `Chat.get_next_session_id` (models.py lines 37-44): 1 when there is no
chat or the largest `session_id` is falsy, else that maximum plus one. -/
def get_next_session_id (db : Db) : Nat :=
  if db.chats.isEmpty then 1
  else if maxSessionId db = 0 then 1 else maxSessionId db + 1

/-- `Chat.objects.get(chat_id=..., user=...)`. -/
def findChat (db : Db) (chatId : String) (owner : Nat) : Option Conversation :=
  db.chats.find? (fun c => decide (c.chat_id = chatId ∧ c.owner = owner))

/-- `Chat.objects.create(...)` with the next global session id and an empty
conversation history. -/
def createChat (db : Db) (chatId : String) (owner : Nat) (title : String) : Db :=
  Db.mk (db.chats ++ [Conversation.mk chatId (get_next_session_id db) owner title []])
    db.msgs db.docs

/-- `ChatMessage.objects.create(chat=..., role=..., content=...)`. -/
def createMessage (db : Db) (chatId : String) (owner : Nat) (role content : String) : Db :=
  Db.mk db.chats (db.msgs ++ [MsgRecord.mk chatId owner role content]) db.docs

/-- `Chat.add_to_history`: append one turn to the conversation's embedded
history list and save. -/
def addToHistory (db : Db) (chatId : String) (owner : Nat) (role content : String) : Db :=
  Db.mk (db.chats.map (fun c =>
      if c.chat_id = chatId ∧ c.owner = owner then
        Conversation.mk c.chat_id c.session_id c.owner c.title
          (c.conversation_history ++ [Turn.mk role content])
      else c))
    db.msgs db.docs

/-- `chat.title = ...; chat.save()`. -/
def updateTitle (db : Db) (chatId : String) (owner : Nat) (title : String) : Db :=
  Db.mk (db.chats.map (fun c =>
      if c.chat_id = chatId ∧ c.owner = owner then
        Conversation.mk c.chat_id c.session_id c.owner title c.conversation_history
      else c))
    db.msgs db.docs

/-- The `ValueError` message of `get_groq_client` when no API key is set. -/
def apiKeyErrorMsg : String := "GROQ_API_KEY not found in environment variables"

theorem le_foldl_max (l : List Conversation) (a : Nat) :
    a ≤ l.foldl (fun m c => max m c.session_id) a := by
  induction l generalizing a with
  | nil => simp
  | cons c t ih => exact le_trans (le_max_left a c.session_id) (ih _)

theorem mem_le_foldl_max (l : List Conversation) (a : Nat) (c : Conversation) (h : c ∈ l) :
    c.session_id ≤ l.foldl (fun m x => max m x.session_id) a := by
  induction l generalizing a with
  | nil => cases h
  | cons x t ih =>
    rcases List.mem_cons.mp h with heq | h'
    · subst heq
      exact le_trans (le_max_right a c.session_id) (le_foldl_max t _)
    · exact ih _ h'

theorem get_next_session_id_nonempty (db : Db) (h : db.chats.isEmpty = false) :
    get_next_session_id db = maxSessionId db + 1 := by
  unfold get_next_session_id
  rw [h]
  by_cases h0 : maxSessionId db = 0 <;> simp [h0]

theorem maxSessionId_createChat (db : Db) (cid : String) (owner : Nat) (title : String) :
    maxSessionId (createChat db cid owner title) =
      max (maxSessionId db) (get_next_session_id db) := by
  unfold maxSessionId createChat
  rw [List.foldl_append]
  rfl

theorem max_get_next (db : Db) :
    max (maxSessionId db) (get_next_session_id db) = get_next_session_id db := by
  unfold get_next_session_id
  by_cases he : db.chats.isEmpty
  · have h0 : maxSessionId db = 0 := by
      unfold maxSessionId
      rw [List.isEmpty_iff.mp he]
      rfl
    simp [he, h0]
  · simp only [Bool.not_eq_true] at he
    by_cases h0 : maxSessionId db = 0
    · simp [he, h0]
    · simp [he, h0]

/-- C5: every existing conversation's sequence number is strictly below the
next assigned one (so assignments are unique across all owners), an empty
table yields 1, and after any creation — by any owner — the next global
sequence number is exactly one greater than the one just assigned. -/
theorem session_id_global_monotone (db : Db) (cid : String) (owner : Nat) (title : String)
    (c : Conversation) (hc : c ∈ db.chats) :
    c.session_id < get_next_session_id db ∧
    get_next_session_id (Db.mk [] db.msgs db.docs) = 1 ∧
    get_next_session_id (createChat db cid owner title) = get_next_session_id db + 1 := by
  refine ⟨?_, rfl, ?_⟩
  · have hne : db.chats.isEmpty = false := by
      cases hch : db.chats with
      | nil => rw [hch] at hc; cases hc
      | cons x t => rfl
    rw [get_next_session_id_nonempty db hne]
    have hle : c.session_id ≤ maxSessionId db := mem_le_foldl_max db.chats 0 c hc
    omega
  · have hne : (createChat db cid owner title).chats.isEmpty = false := by
      unfold createChat
      simp
    rw [get_next_session_id_nonempty _ hne, maxSessionId_createChat, max_get_next]

/-- A one-row chat table used by concrete instances below. -/
def convA : Conversation := Conversation.mk "c-existing" 1 7 "T" []

def dbOneChat : Db := Db.mk [convA] [] []

def chatKeyB : String := "chat-B"

def titleB : String := "hello"

theorem session_id_global_monotone_witness :
    convA ∈ dbOneChat.chats ∧
    (convA.session_id < get_next_session_id dbOneChat ∧
      get_next_session_id (Db.mk [] dbOneChat.msgs dbOneChat.docs) = 1 ∧
      get_next_session_id (createChat dbOneChat chatKeyB 8 titleB) =
        get_next_session_id dbOneChat + 1) :=
  ⟨by decide, session_id_global_monotone dbOneChat chatKeyB 8 titleB convA (by decide)⟩

/-- System prompt of the `chat` view when exactly one document is active. -/
def chatSystemPromptSingle : String :=
  "You are a helpful AI assistant with access to a document that the user has uploaded.\nYou can see the full content of the document and should answer questions based on it.\nWhen the user asks to \"summarize\" or \"summarize the attached pdf\" or similar, automatically provide a summary of the document.\nProvide brief, concise answers that cover all important information comprehensively.\nBe succinct but ensure you include all key points.\nWhen answering, use information from the document when relevant.\nNever say you can't access attachments or ask the user to paste text - you already have the document content."

/-- System prompt of the `chat` view when several documents are active; the
document count is interpolated. -/
def chatSystemPromptMulti (docCount : Nat) : String :=
  "You are a helpful AI assistant with access to " ++ toString docCount ++
  " documents that the user has uploaded.\nYou can see the full content of all documents and should answer questions based on them.\nThe documents are numbered: Document 1 (first document), Document 2 (second document), etc.\nWhen the user asks to \"summarize the first document\" or \"summarize document 1\", summarize Document 1.\nWhen the user asks to \"summarize the second document\" or \"summarize document 2\", summarize Document 2.\nWhen the user asks to \"summarize\" without specifying, summarize all documents.\nProvide brief, concise answers that cover all important information comprehensively.\nBe succinct but ensure you include all key points.\nWhen answering, use information from the relevant document(s) when relevant.\nNever say you can't access attachments or ask the user to paste text - you already have the document content."

/-- System prompt of the `chat` view with no active documents. -/
def chatSystemPromptGeneric : String :=
  "You are a helpful AI assistant. Provide brief, concise answers that cover all important information comprehensively. Be succinct but ensure you include all key points. Keep responses focused and to the point while maintaining completeness. Use clear, direct language and avoid unnecessary elaboration."

/-- System-prompt selection of the `chat` view by active-document count. -/
def chatSystemPrompt (docCount : Nat) : String :=
  if docCount = 0 then chatSystemPromptGeneric
  else if docCount = 1 then chatSystemPromptSingle
  else chatSystemPromptMulti docCount

/-- Per-call truncation of a cached document to 15000 characters in the
`chat` view, with the continuation marker when cut. -/
def truncateForContext (text : String) : String :=
  if 15000 < pyLen text then pyTake text 15000 ++ continuesTruncMarker else text

/-- The visible delimiter between document blocks. -/
def docSeparator : String := "\n\n---\n\n"

/-- One labeled document block of the injected context (1-based index). -/
def docContextEntry (idx : Nat) (doc : DocEntry) : String :=
  "Document " ++ toString idx ++ " ('" ++ doc.filename ++ "'):\n" ++ truncateForContext doc.text

/-- The single synthetic user-role message injecting all active documents. -/
def docContextBlock (docs : List DocEntry) : String :=
  "[Document context from uploaded files:\n" ++
    String.intercalate docSeparator (docs.enum.map (fun p => docContextEntry (p.1 + 1) p.2)) ++
    "\n]\n\nNow answer the user's question based on the above document content:"

/-- The message sequence the `chat` view hands to the model (views.py lines
158-265): system prompt, then the synthetic document-context user message
when any document is active, then the replayed history minus system
entries, then the new user message. -/
def buildChatMessages (activeDocuments : List DocEntry) (history : List Turn)
    (userMessage : String) : List Turn :=
  [Turn.mk "system" (chatSystemPrompt activeDocuments.length)]
    ++ (if activeDocuments.isEmpty then [] else [Turn.mk "user" (docContextBlock activeDocuments)])
    ++ (history.filter (fun m => decide (m.role ≠ "system"))).map (fun m => Turn.mk m.role m.content)
    ++ [Turn.mk "user" userMessage]

inductive ChatResponse where
  | badRequest (msg : String)
  | serverError (msg : String)
  | success (response : String) (chatId : String)
deriving DecidableEq

/-- The `chat` view (views.py lines 127-342).  `gateway` is the LLM call,
`apiOk` whether `GROQ_API_KEY` is configured, `freshId` the uuid generated
when no chat id is supplied.  Returns the new state, the message sequences
handed to the gateway, and the HTTP response. -/
def chatStep (st : ServerState) (owner : Nat) (message : String) (history : List Turn)
    (chatId0 : String) (apiOk : Bool) (gateway : List Turn → String) (freshId : String) :
    ServerState × List (List Turn) × ChatResponse :=
  let userMessage := pyStrip message
  if userMessage = "" then (st, [], ChatResponse.badRequest "Message cannot be empty")
  else if apiOk = false then (st, [], ChatResponse.serverError apiKeyErrorMsg)
  else
    let activeDocuments := if chatId0 ≠ "" then lookupKey st.session chatId0 else []
    let msgs := buildChatMessages activeDocuments history userMessage
    let aiResponse := gateway msgs
    let chatId := if chatId0 ≠ "" then chatId0 else freshId
    let db1 :=
      match findChat st.db chatId owner with
      | some _ => st.db
      | none =>
        let t := pyTake userMessage 50
        let title := if t = "" then "New Chat" else t
        createChat st.db chatId owner title
    let db2 := createMessage db1 chatId owner "user" userMessage
    let db3 := createMessage db2 chatId owner "assistant" aiResponse
    let db4 := addToHistory db3 chatId owner "user" userMessage
    let db5 := addToHistory db4 chatId owner "assistant" aiResponse
    let db6 :=
      if (findChat db5 chatId owner).map Conversation.title = some "New Chat" ∧
          userMessage ≠ "" then
        updateTitle db5 chatId owner (pyTake userMessage 50)
      else db5
    (ServerState.mk st.session db6, [msgs], ChatResponse.success aiResponse chatId)

theorem filter_system_of_filtered (history : List Turn) :
    ((history.filter (fun m => decide (m.role ≠ "system"))).map
        (fun m => Turn.mk m.role m.content)).filter
      (fun m => decide (m.role = "system")) = [] := by
  induction history with
  | nil => rfl
  | cons a t ih =>
    by_cases ha : a.role = "system"
    · simp [List.filter_cons, ha, ih]
    · simp [List.filter_cons, ha, ih]

/-- C6: for a chat call with a message that is non-empty after stripping, the
gateway is handed exactly one message sequence, `buildChatMessages` of the
conversation's active documents; that sequence starts with exactly one
system message, is followed by the single synthetic document-context user
message exactly when at least one document is active, then the prior
history in order with system-role entries skipped, and ends with the new
user utterance. -/
theorem chat_gateway_message_sequence (st : ServerState) (owner : Nat) (message : String)
    (history : List Turn) (chatId freshId : String) (gateway : List Turn → String)
    (h : pyStrip message ≠ "") :
    (chatStep st owner message history chatId true gateway freshId).2.1 =
      [buildChatMessages (if chatId ≠ "" then lookupKey st.session chatId else [])
        history (pyStrip message)] ∧
    (∀ (docs : List DocEntry) (hist : List Turn) (m : String),
      buildChatMessages docs hist m =
        Turn.mk "system" (chatSystemPrompt docs.length) ::
          ((if docs.isEmpty then [] else [Turn.mk "user" (docContextBlock docs)]) ++
            (hist.filter (fun t => decide (t.role ≠ "system"))).map
              (fun t => Turn.mk t.role t.content) ++
            [Turn.mk "user" m]) ∧
      ((buildChatMessages docs hist m).filter
          (fun t => decide (t.role = "system"))).length = 1 ∧
      (buildChatMessages docs hist m).getLast? = some (Turn.mk "user" m)) := by
  constructor
  · simp only [chatStep]
    rw [if_neg h]
    simp
  · intro docs hist m
    have hcan : buildChatMessages docs hist m =
        Turn.mk "system" (chatSystemPrompt docs.length) ::
          ((if docs.isEmpty then [] else [Turn.mk "user" (docContextBlock docs)]) ++
            (hist.filter (fun t => decide (t.role ≠ "system"))).map
              (fun t => Turn.mk t.role t.content) ++
            [Turn.mk "user" m]) := rfl
    refine ⟨hcan, ?_, ?_⟩
    · rw [hcan, List.filter_cons]
      by_cases hd : docs.isEmpty
      · simp [hd, List.filter_append, filter_system_of_filtered]
      · simp [hd, List.filter_append, filter_system_of_filtered]
    · rw [hcan, ← List.cons_append, List.getLast?_concat]

/-- Concrete inputs used by the witness instances. -/
def stEmpty : ServerState := ServerState.mk [] (Db.mk [] [] [])

def gwConst : List Turn → String := fun _ => "OK"

def msgHi : String := "hi"

def emptyChatId : String := ""

def freshA : String := "fresh-1"

theorem chat_gateway_message_sequence_witness :
    pyStrip msgHi ≠ "" ∧
    (chatStep stEmpty 7 msgHi [] emptyChatId true gwConst freshA).2.1 =
      [buildChatMessages (if emptyChatId ≠ "" then lookupKey stEmpty.session emptyChatId else [])
        [] (pyStrip msgHi)] :=
  ⟨by decide,
    (chat_gateway_message_sequence stEmpty 7 msgHi [] emptyChatId freshA gwConst (by decide)).1⟩

/-- C4: uploading a document whose text exceeds 50000 characters caches the
first 50000 characters plus the literal truncation marker as the entry's
text; injecting a cached entry whose text exceeds 15000 characters into a
chat call uses the first 15000 characters plus the continuation marker for
that call; and the chat call never writes the session cache, so the stored
entry is untouched. -/
theorem truncation_limits (cd : ChatDocuments) (cid : String) (docId : Nat)
    (filename text : String) (doc : DocEntry) (st : ServerState) (owner : Nat)
    (message : String) (history : List Turn) (chatId : String) (apiOk : Bool)
    (gateway : List Turn → String) (freshId : String)
    (hcid : cid ≠ "") (hstrip : pyStrip text ≠ "") (hlen : 50000 < pyLen text)
    (hdoc : 15000 < pyLen doc.text) :
    (lookupKey ((uploadSession cd cid docId filename text).1) cid).getLast? =
      some (DocEntry.mk docId filename (pyTake text 50000 ++ lengthTruncMarker)) ∧
    truncateForContext doc.text = pyTake doc.text 15000 ++ continuesTruncMarker ∧
    ((chatStep st owner message history chatId apiOk gateway freshId).1).session =
      st.session := by
  refine ⟨?_, ?_, ?_⟩
  · have hs : (uploadSession cd cid docId filename text).1 =
        upsertDocument cd cid (DocEntry.mk docId filename (truncateForCache text)) := by
      simp [uploadSession, hstrip]
    rw [hs]
    have hsk : storageKey cid = cid := by simp [storageKey, hcid]
    have h1 := upsert_lookup cd cid (DocEntry.mk docId filename (truncateForCache text))
    rw [hsk, if_pos hcid] at h1
    rw [h1, keepLast2_append_one, List.getLast?_concat]
    unfold truncateForCache
    rw [if_pos hlen]
  · unfold truncateForContext
    rw [if_pos hdoc]
  · unfold chatStep
    by_cases h1 : pyStrip message = ""
    · simp [h1]
    · by_cases h2 : apiOk = false
      · simp [h1, h2]
      · simp [h1, h2]

def bigName : String := "big.txt"

def bigText : String := String.mk (List.replicate 50001 'a')

def medText : String := String.mk (List.replicate 15001 'b')

def mdoc : DocEntry := DocEntry.mk 9 "m.txt" medText

theorem dropWhile_ws_replicate (c : Char) (h : c.isWhitespace = false) (n : Nat) :
    (List.replicate n c).dropWhile Char.isWhitespace = List.replicate n c := by
  cases n with
  | zero => rfl
  | succ m => simp [List.replicate_succ, List.dropWhile_cons, h]

theorem pyStrip_replicate (c : Char) (h : c.isWhitespace = false) (n : Nat) :
    pyStrip (String.mk (List.replicate n c)) = String.mk (List.replicate n c) := by
  unfold pyStrip
  rw [show (String.mk (List.replicate n c)).data = List.replicate n c from rfl,
    dropWhile_ws_replicate c h, List.reverse_replicate, dropWhile_ws_replicate c h,
    List.reverse_replicate]

theorem pyStrip_bigText_ne : pyStrip bigText ≠ "" := by
  unfold bigText
  rw [pyStrip_replicate 'a' (by decide)]
  intro heq
  have h1 : (List.replicate 50001 'a').length = ("" : String).data.length :=
    congrArg (fun s => s.data.length) heq
  rw [List.length_replicate] at h1
  exact absurd h1 (by decide)

theorem pyLen_bigText : pyLen bigText = 50001 := by
  have h1 : pyLen bigText = (List.replicate 50001 'a').length := rfl
  rw [h1, List.length_replicate]

theorem pyLen_medText : pyLen mdoc.text = 15001 := by
  have h1 : pyLen mdoc.text = (List.replicate 15001 'b').length := rfl
  rw [h1, List.length_replicate]

theorem truncation_limits_witness :
    (cacheKeyA ≠ "" ∧ pyStrip bigText ≠ "" ∧ 50000 < pyLen bigText ∧
      15000 < pyLen mdoc.text) ∧
    ((lookupKey ((uploadSession [] cacheKeyA 4 bigName bigText).1) cacheKeyA).getLast? =
        some (DocEntry.mk 4 bigName (pyTake bigText 50000 ++ lengthTruncMarker)) ∧
      truncateForContext mdoc.text = pyTake mdoc.text 15000 ++ continuesTruncMarker ∧
      ((chatStep stEmpty 7 msgHi [] emptyChatId true gwConst freshA).1).session =
        stEmpty.session) :=
  ⟨⟨by decide, pyStrip_bigText_ne, by rw [pyLen_bigText]; omega,
      by rw [pyLen_medText]; omega⟩,
    truncation_limits [] cacheKeyA 4 bigName bigText mdoc stEmpty 7 msgHi [] emptyChatId
      true gwConst freshA (by decide) pyStrip_bigText_ne
      (by rw [pyLen_bigText]; omega) (by rw [pyLen_medText]; omega)⟩

/-- The `ChatMessage` rows created from a posted message list for one chat. -/
def msgsOf (messages : List Turn) (chatId : String) (owner : Nat) : List MsgRecord :=
  messages.map (fun t => MsgRecord.mk chatId owner t.role t.content)

/-- The `save_chat` view (views.py lines 403-452): update title and delete the
chat's existing `ChatMessage` rows when the chat exists, else create it with
the next global session id; then insert the posted messages. -/
def saveChatStep (db : Db) (owner : Nat) (chatId : String) (title : String)
    (messages : List Turn) : Db :=
  if chatId = "" then db
  else
    match findChat db chatId owner with
    | some _ =>
      let db1 := updateTitle db chatId owner title
      let db2 := Db.mk db1.chats
        (db1.msgs.filter (fun m => decide (¬(m.chat_id = chatId ∧ m.owner = owner)))) db1.docs
      Db.mk db2.chats (db2.msgs ++ msgsOf messages chatId owner) db2.docs
    | none =>
      let db1 := createChat db chatId owner title
      Db.mk db1.chats (db1.msgs ++ msgsOf messages chatId owner) db1.docs

theorem find?_append_none {α} (l1 l2 : List α) (p : α → Bool) (h : l1.find? p = none) :
    (l1 ++ l2).find? p = l2.find? p := by
  induction l1 with
  | nil => rfl
  | cons a t ih =>
    by_cases hpa : p a = true
    · rw [List.find?_cons_of_pos t hpa] at h
      cases h
    · have hpa' : ¬ p a = true := hpa
      rw [List.find?_cons_of_neg t hpa'] at h
      rw [List.cons_append, List.find?_cons_of_neg _ hpa']
      exact ih h

theorem map_eq_self_of {α} (l : List α) (f : α → α) (h : ∀ a ∈ l, f a = a) :
    l.map f = l := by
  induction l with
  | nil => rfl
  | cons a t ih =>
    rw [List.map_cons, h a (List.mem_cons_self a t),
      ih (fun x hx => h x (List.mem_cons_of_mem a hx))]

theorem msgsOf_key (messages : List Turn) (cid : String) (owner : Nat) (a : MsgRecord)
    (h : a ∈ msgsOf messages cid owner) : a.chat_id = cid ∧ a.owner = owner := by
  unfold msgsOf at h
  rcases List.mem_map.mp h with ⟨t, _, rfl⟩
  exact ⟨rfl, rfl⟩

/-- C9: starting from a database with no conversation for `(chat_id, owner)`,
two consecutive `save_chat` calls with that pair leave exactly one matching
conversation; its title is the second call's title and the flattened
message rows for that pair are exactly the second call's messages (not the
first call's followed by the second's). -/
theorem save_chat_idempotent_creation (db : Db) (owner : Nat) (cid t1 t2 : String)
    (m1 m2 : List Turn) (hcid : cid ≠ "") (hfresh : findChat db cid owner = none) :
    ((saveChatStep (saveChatStep db owner cid t1 m1) owner cid t2 m2).chats.filter
        (fun c => decide (c.chat_id = cid ∧ c.owner = owner))).length = 1 ∧
    (findChat (saveChatStep (saveChatStep db owner cid t1 m1) owner cid t2 m2) cid
        owner).map Conversation.title = some t2 ∧
    (saveChatStep (saveChatStep db owner cid t1 m1) owner cid t2 m2).msgs.filter
        (fun m => decide (m.chat_id = cid ∧ m.owner = owner)) = msgsOf m2 cid owner := by
  have hnotmem : ∀ c ∈ db.chats, ¬(c.chat_id = cid ∧ c.owner = owner) := by
    intro c hc hk
    have := List.find?_eq_none.mp hfresh c hc
    simp [hk.1, hk.2] at this
  have hS1 : saveChatStep db owner cid t1 m1 =
      Db.mk (db.chats ++ [Conversation.mk cid (get_next_session_id db) owner t1 []])
        (db.msgs ++ msgsOf m1 cid owner) db.docs := by
    unfold saveChatStep
    rw [if_neg hcid, hfresh]
    rfl
  have hfind1 : findChat (Db.mk
        (db.chats ++ [Conversation.mk cid (get_next_session_id db) owner t1 []])
        (db.msgs ++ msgsOf m1 cid owner) db.docs) cid owner =
      some (Conversation.mk cid (get_next_session_id db) owner t1 []) := by
    unfold findChat
    rw [show (Db.mk (db.chats ++ [Conversation.mk cid (get_next_session_id db) owner t1 []])
        (db.msgs ++ msgsOf m1 cid owner) db.docs).chats =
      db.chats ++ [Conversation.mk cid (get_next_session_id db) owner t1 []] from rfl]
    rw [find?_append_none _ _ _ hfresh]
    simp
  have hS2 : saveChatStep (saveChatStep db owner cid t1 m1) owner cid t2 m2 =
      Db.mk ((db.chats ++ [Conversation.mk cid (get_next_session_id db) owner t1 []]).map
          (fun c => if c.chat_id = cid ∧ c.owner = owner then
            Conversation.mk c.chat_id c.session_id c.owner t2 c.conversation_history
          else c))
        (((db.msgs ++ msgsOf m1 cid owner).filter
            (fun m => decide (¬(m.chat_id = cid ∧ m.owner = owner)))) ++ msgsOf m2 cid owner)
        db.docs := by
    rw [hS1]
    unfold saveChatStep
    rw [if_neg hcid, hfind1]
    rfl
  have hmap : (db.chats ++ [Conversation.mk cid (get_next_session_id db) owner t1 []]).map
      (fun c => if c.chat_id = cid ∧ c.owner = owner then
        Conversation.mk c.chat_id c.session_id c.owner t2 c.conversation_history
      else c) =
      db.chats ++ [Conversation.mk cid (get_next_session_id db) owner t2 []] := by
    have hself : db.chats.map (fun c => if c.chat_id = cid ∧ c.owner = owner then
        Conversation.mk c.chat_id c.session_id c.owner t2 c.conversation_history
      else c) = db.chats := by
      apply map_eq_self_of
      intro c hc
      exact if_neg (hnotmem c hc)
    rw [List.map_append, hself]
    simp
  have hm1filter : (msgsOf m1 cid owner).filter
      (fun m => decide (¬(m.chat_id = cid ∧ m.owner = owner))) = [] := by
    rw [List.filter_eq_nil_iff]
    intro a ha
    have hk := msgsOf_key m1 cid owner a ha
    simp [hk.1, hk.2]
  refine ⟨?_, ?_, ?_⟩
  · rw [hS2]
    dsimp only
    rw [hmap, List.filter_append]
    have hnil : db.chats.filter (fun c => decide (c.chat_id = cid ∧ c.owner = owner)) = [] := by
      rw [List.filter_eq_nil_iff]
      intro c hc
      simp [hnotmem c hc]
    rw [hnil]
    simp
  · rw [hS2]
    unfold findChat
    dsimp only
    rw [hmap]
    rw [find?_append_none _ _ _ hfresh]
    simp
  · rw [hS2]
    dsimp only
    rw [List.filter_append, List.filter_append, hm1filter, List.append_nil]
    have hdbnil : (db.msgs.filter (fun m =>
        decide (¬(m.chat_id = cid ∧ m.owner = owner)))).filter (fun m =>
        decide (m.chat_id = cid ∧ m.owner = owner)) = [] := by
      rw [List.filter_eq_nil_iff]
      intro a ha
      have h2 := (List.mem_filter.mp ha).2
      simp at h2 ⊢
      rcases h2 with h2 | h2
      · intro hc
        exact absurd hc h2
      · intro _
        exact h2
    rw [hdbnil]
    have hkeep : (msgsOf m2 cid owner).filter
        (fun m => decide (m.chat_id = cid ∧ m.owner = owner)) = msgsOf m2 cid owner := by
      rw [List.filter_eq_self]
      intro a ha
      have hk := msgsOf_key m2 cid owner a ha
      simp [hk.1, hk.2]
    rw [hkeep]
    rfl

def titleC : String := "second title"

def turnU : Turn := Turn.mk "user" "question one"

def turnA : Turn := Turn.mk "assistant" "answer one"

theorem save_chat_idempotent_creation_witness :
    (chatKeyB ≠ "" ∧ findChat (Db.mk [] [] []) chatKeyB 7 = none) ∧
    (((saveChatStep (saveChatStep (Db.mk [] [] []) 7 chatKeyB titleB [turnU, turnA]) 7 chatKeyB
          titleC [turnA]).chats.filter
        (fun c => decide (c.chat_id = chatKeyB ∧ c.owner = 7))).length = 1 ∧
      (findChat (saveChatStep (saveChatStep (Db.mk [] [] []) 7 chatKeyB titleB [turnU, turnA]) 7
          chatKeyB titleC [turnA]) chatKeyB 7).map Conversation.title = some titleC ∧
      (saveChatStep (saveChatStep (Db.mk [] [] []) 7 chatKeyB titleB [turnU, turnA]) 7 chatKeyB
          titleC [turnA]).msgs.filter
        (fun m => decide (m.chat_id = chatKeyB ∧ m.owner = 7)) = msgsOf [turnA] chatKeyB 7) :=
  ⟨⟨by decide, rfl⟩,
    save_chat_idempotent_creation (Db.mk [] [] []) 7 chatKeyB titleB titleC [turnU, turnA]
      [turnA] (by decide) rfl⟩

/-- The validation error for a position token outside the accepted
vocabulary, naming the accepted tokens. -/
def invalidPositionMsg (position : String) : String :=
  "Invalid position: " ++ position ++ ". Use \"first\", \"second\", \"1\", or \"2\""

/-- The error when the resolved index is beyond the active-document list. -/
def positionNotFoundMsg (position : String) (n : Nat) : String :=
  "Document " ++ position ++ " not found. Only " ++ toString n ++ " document(s) available."

/-- Outcome of the document-selection phase of `summarize_document`
(views.py lines 582-633). -/
inductive DocSelection where
  | invalidPosition (msg : String)
  | positionNotFound (msg : String)
  | fromActive (idx : Nat) (doc : DocEntry)
  | fromStore (doc : DocumentRec)
  | storeNotFound
  | storeNoText
  | summarizeAll
deriving DecidableEq

/-- Position-based selection at a resolved index against the active list. -/
def selectAtIndex (active : List DocEntry) (position : String) (idx : Nat) : DocSelection :=
  match active.get? idx with
  | some d => DocSelection.fromActive idx d
  | none => DocSelection.positionNotFound (positionNotFoundMsg position active.length)

/-- The selection logic of `summarize_document`: position token first
(already lowercased and stripped), then explicit document id against the
active list and then the Document store, else summarize-all. -/
def selectDocument (active : List DocEntry) (docs : List DocumentRec)
    (owner documentId : Nat) (position : String) : DocSelection :=
  if position ≠ "" then
    if position = "first" ∨ position = "1" then selectAtIndex active position 0
    else if position = "second" ∨ position = "2" then selectAtIndex active position 1
    else DocSelection.invalidPosition (invalidPositionMsg position)
  else if documentId ≠ 0 then
    match active.enum.find? (fun p => decide (p.2.id = documentId)) with
    | some p => DocSelection.fromActive p.1 p.2
    | none =>
      match docs.find? (fun d => decide (d.id = documentId ∧ d.owner = owner)) with
      | some document =>
        if document.extracted_text = "" then DocSelection.storeNoText
        else DocSelection.fromStore document
      | none => DocSelection.storeNotFound
  else DocSelection.summarizeAll

def summarizeSystemPrompt : String :=
  "You are a helpful assistant that provides clear, comprehensive summaries of documents."

/-- The fixed four-section request shared by the summarization prompts. -/
def summarizeChecklist : String :=
  "Please provide:\n1. A brief overview (2-3 sentences)\n2. Key points and main topics\n3. Important details or findings\n4. Any conclusions or recommendations if present\n\nFormat your response in a clear, structured manner."

/-- The per-document prompt of the summarize-all loop (1-based index). -/
def summarizeAllPrompt (idx : Nat) (filename text : String) : String :=
  "Please provide a comprehensive summary of Document " ++ toString idx ++ " ('" ++
    filename ++ "').\nThe document is " ++ toString (pyLen text) ++
    " characters long. Here is the content:\n\n" ++ text ++ "\n\n" ++ summarizeChecklist

/-- The single-document summarization prompt, with the position label when
the document was selected from the active list. -/
def singleSummarizePrompt (docIndex : Option Nat) (_filename text : String) : String :=
  let positionLabel :=
    match docIndex with
    | some i => " (Document " ++ toString (i + 1) ++ ")"
    | none => ""
  "Please provide a comprehensive summary of the following document" ++ positionLabel ++
    ".\nThe document is " ++ toString (pyLen text) ++
    " characters long. Here is the content:\n\n" ++ text ++ "\n\n" ++ summarizeChecklist

inductive SummarizeResponse where
  | badRequest (msg : String)
  | notFound (msg : String)
  | serverError (msg : String)
  | success (filename summary : String) (chatId : Option String)
deriving DecidableEq

/-- The single-document tail of `summarize_document` (views.py lines
695-797): validate text, call the gateway, and when a chat id was supplied
get-or-create the conversation and record the `Summarize: <filename>` /
summary turn pair in both stores. -/
def summarizeSingle (st : ServerState) (owner : Nat) (chatId : String) (apiOk : Bool)
    (gateway : List Turn → String) (docIndex : Option Nat) (doc : DocEntry) :
    ServerState × List (List Turn) × SummarizeResponse :=
  if pyStrip doc.text = "" then
    (st, [], SummarizeResponse.badRequest "No text extracted from document")
  else if apiOk = false then (st, [], SummarizeResponse.serverError apiKeyErrorMsg)
  else
    let msgs := [Turn.mk "system" summarizeSystemPrompt,
      Turn.mk "user" (singleSummarizePrompt docIndex doc.filename doc.text)]
    let summary := gateway msgs
    if chatId ≠ "" then
      let db1 :=
        match findChat st.db chatId owner with
        | some _ => st.db
        | none => createChat st.db chatId owner ("Summary: " ++ doc.filename)
      let userMsg := "Summarize: " ++ doc.filename
      let db2 := createMessage db1 chatId owner "user" userMsg
      let db3 := createMessage db2 chatId owner "assistant" summary
      let db4 := addToHistory db3 chatId owner "user" userMsg
      let db5 := addToHistory db4 chatId owner "assistant" summary
      (ServerState.mk st.session db5, [msgs],
        SummarizeResponse.success doc.filename summary (some chatId))
    else
      (st, [msgs], SummarizeResponse.success doc.filename summary none)

/-- The `summarize_document` view (views.py lines 568-802).  The position is
lowercased and stripped before use; the summarize-all path is
presentation-only (no persistence) with one gateway call per
non-empty-text document at its original 1-based index. -/
def summarizeStep (st : ServerState) (owner documentId : Nat) (position0 chatId : String)
    (apiOk : Bool) (gateway : List Turn → String) :
    ServerState × List (List Turn) × SummarizeResponse :=
  let position := pyLower (pyStrip position0)
  let active := if chatId ≠ "" then lookupKey st.session chatId else []
  match selectDocument active st.db.docs owner documentId position with
  | DocSelection.invalidPosition m => (st, [], SummarizeResponse.badRequest m)
  | DocSelection.positionNotFound m => (st, [], SummarizeResponse.badRequest m)
  | DocSelection.storeNotFound =>
    (st, [], SummarizeResponse.notFound "No Document matches the given query.")
  | DocSelection.storeNoText =>
    (st, [], SummarizeResponse.badRequest "No text extracted from document")
  | DocSelection.summarizeAll =>
    if active.isEmpty then
      (st, [], SummarizeResponse.badRequest "No documents available to summarize")
    else
      let items := active.enum.filterMap
        (fun p => if pyStrip p.2.text = "" then none else some (p.1 + 1, p.2))
      if items.isEmpty then
        (st, [], SummarizeResponse.success (toString active.length ++ " document(s)") "" none)
      else if apiOk = false then (st, [], SummarizeResponse.serverError apiKeyErrorMsg)
      else
        let call := fun (p : Nat × DocEntry) => [Turn.mk "system" summarizeSystemPrompt,
          Turn.mk "user" (summarizeAllPrompt p.1 p.2.filename p.2.text)]
        let summaries := items.map (fun p =>
          "**Document " ++ toString p.1 ++ ": " ++ p.2.filename ++ "**\n\n" ++ gateway (call p))
        (st, items.map call,
          SummarizeResponse.success (toString active.length ++ " document(s)")
            (String.intercalate docSeparator summaries) none)
  | DocSelection.fromActive idx doc =>
    summarizeSingle st owner chatId apiOk gateway (some idx) doc
  | DocSelection.fromStore document =>
    summarizeSingle st owner chatId apiOk gateway none
      (DocEntry.mk document.id document.filename document.extracted_text)

/-- C7 (amended): a summarize request whose position token is non-empty and
outside first/second/1/2 after lowercasing and stripping returns the
validation error naming the accepted tokens, leaves the state unchanged and
makes no gateway call; first/1 resolve to index 0 and second/2 to index 1
(see the selection conjuncts of `position_overrides_document_id`). -/
theorem summarize_invalid_position_rejected (st : ServerState) (owner documentId : Nat)
    (position0 chatId : String) (apiOk : Bool) (gateway : List Turn → String)
    (h1 : pyLower (pyStrip position0) ≠ "")
    (h2 : pyLower (pyStrip position0) ≠ "first") (h3 : pyLower (pyStrip position0) ≠ "1")
    (h4 : pyLower (pyStrip position0) ≠ "second") (h5 : pyLower (pyStrip position0) ≠ "2") :
    summarizeStep st owner documentId position0 chatId apiOk gateway =
      (st, [],
        SummarizeResponse.badRequest (invalidPositionMsg (pyLower (pyStrip position0)))) := by
  have hsel : selectDocument (if chatId ≠ "" then lookupKey st.session chatId else [])
      st.db.docs owner documentId (pyLower (pyStrip position0)) =
      DocSelection.invalidPosition (invalidPositionMsg (pyLower (pyStrip position0))) := by
    unfold selectDocument
    rw [if_pos h1, if_neg (not_or.mpr ⟨h2, h3⟩), if_neg (not_or.mpr ⟨h4, h5⟩)]
  simp only [summarizeStep]
  rw [hsel]

def posThird : String := "third"

theorem summarize_invalid_position_rejected_witness :
    (pyLower (pyStrip posThird) ≠ "" ∧ pyLower (pyStrip posThird) ≠ "first" ∧
      pyLower (pyStrip posThird) ≠ "1" ∧ pyLower (pyStrip posThird) ≠ "second" ∧
      pyLower (pyStrip posThird) ≠ "2") ∧
    summarizeStep stEmpty 7 0 posThird emptyChatId true gwConst =
      (stEmpty, [],
        SummarizeResponse.badRequest (invalidPositionMsg (pyLower (pyStrip posThird)))) :=
  ⟨⟨by decide, by decide, by decide, by decide, by decide⟩,
    summarize_invalid_position_rejected stEmpty 7 0 posThird emptyChatId true gwConst
      (by decide) (by decide) (by decide) (by decide) (by decide)⟩

def posFIRST : String := "FIRST"

def stOneDoc : ServerState := ServerState.mk [(cacheKeyA, [e1])] (Db.mk [] [] [])

/-- C7 counterexample: the literal claim quantifies over the request's
position token; the token `FIRST` is non-empty and differs from all of
first/second/1/2, yet the call lowercases it first, selects index 0 and
succeeds with a gateway call instead of returning a validation error. -/
theorem summarize_uppercase_position_accepted :
    (posFIRST ≠ "" ∧ posFIRST ≠ "first" ∧ posFIRST ≠ "second" ∧ posFIRST ≠ "1" ∧
      posFIRST ≠ "2") ∧
    (summarizeStep stOneDoc 7 0 posFIRST cacheKeyA true gwConst).2.2 =
      SummarizeResponse.success e1.filename "OK" (some cacheKeyA) ∧
    (summarizeStep stOneDoc 7 0 posFIRST cacheKeyA true gwConst).2.1 ≠ [] := by
  refine ⟨⟨by decide, by decide, by decide, by decide, by decide⟩, ?_, ?_⟩
  · rfl
  · decide

/-- C10: when a summarize request carries a non-empty (normalized) position
token, the result is identical for any two supplied document ids; a
position-resolved selection always returns the active-list entry at the
resolved index, with first/1 resolving to index 0 and second/2 to index 1. -/
theorem position_overrides_document_id (st : ServerState) (owner d1 d2 : Nat)
    (position0 chatId : String) (apiOk : Bool) (gateway : List Turn → String)
    (h : pyLower (pyStrip position0) ≠ "") :
    summarizeStep st owner d1 position0 chatId apiOk gateway =
      summarizeStep st owner d2 position0 chatId apiOk gateway ∧
    (∀ (active : List DocEntry) (docs : List DocumentRec) (idx : Nat) (doc : DocEntry),
      selectDocument active docs owner d1 (pyLower (pyStrip position0)) =
        DocSelection.fromActive idx doc → active.get? idx = some doc) ∧
    ((pyLower (pyStrip position0) = "first" ∨ pyLower (pyStrip position0) = "1") →
      ∀ (active : List DocEntry) (docs : List DocumentRec),
        selectDocument active docs owner d1 (pyLower (pyStrip position0)) =
          selectAtIndex active (pyLower (pyStrip position0)) 0) ∧
    ((pyLower (pyStrip position0) = "second" ∨ pyLower (pyStrip position0) = "2") →
      ∀ (active : List DocEntry) (docs : List DocumentRec),
        selectDocument active docs owner d1 (pyLower (pyStrip position0)) =
          selectAtIndex active (pyLower (pyStrip position0)) 1) := by
  have hsel : ∀ (active : List DocEntry) (docs : List DocumentRec),
      selectDocument active docs owner d1 (pyLower (pyStrip position0)) =
        selectDocument active docs owner d2 (pyLower (pyStrip position0)) := by
    intro active docs
    unfold selectDocument
    rw [if_pos h, if_pos h]
  refine ⟨?_, ?_, ?_, ?_⟩
  · simp only [summarizeStep]
    rw [hsel]
  · intro active docs idx doc hs
    unfold selectDocument at hs
    rw [if_pos h] at hs
    by_cases hf : pyLower (pyStrip position0) = "first" ∨ pyLower (pyStrip position0) = "1"
    · rw [if_pos hf] at hs
      unfold selectAtIndex at hs
      cases hget : active.get? 0 with
      | some d =>
        rw [hget] at hs
        injection hs with hi hd
        subst hi
        subst hd
        exact hget
      | none =>
        rw [hget] at hs
        cases hs
    · rw [if_neg hf] at hs
      by_cases hg : pyLower (pyStrip position0) = "second" ∨ pyLower (pyStrip position0) = "2"
      · rw [if_pos hg] at hs
        unfold selectAtIndex at hs
        cases hget : active.get? 1 with
        | some d =>
          rw [hget] at hs
          injection hs with hi hd
          subst hi
          subst hd
          exact hget
        | none =>
          rw [hget] at hs
          cases hs
      · rw [if_neg hg] at hs
        cases hs
  · intro hor active docs
    unfold selectDocument
    rw [if_pos h, if_pos hor]
  · intro hor active docs
    have hno : ¬(pyLower (pyStrip position0) = "first" ∨ pyLower (pyStrip position0) = "1") := by
      rcases hor with hx | hx <;> rw [hx] <;> decide
    unfold selectDocument
    rw [if_pos h, if_neg hno, if_pos hor]

theorem position_overrides_document_id_witness :
    pyLower (pyStrip posFIRST) ≠ "" ∧
    summarizeStep stOneDoc 7 111 posFIRST cacheKeyA true gwConst =
      summarizeStep stOneDoc 7 222 posFIRST cacheKeyA true gwConst :=
  ⟨by decide,
    (position_overrides_document_id stOneDoc 7 111 222 posFIRST cacheKeyA true gwConst
      (by decide)).1⟩

inductive AskResponse where
  | badRequest (msg : String)
  | notFound (msg : String)
  | serverError (msg : String)
  | success (answer : String) (documentId : Nat) (filename question chatId : String)
deriving DecidableEq

def askSystemPrompt : String :=
  "You are a helpful assistant that answers questions based on provided documents. Be accurate and cite specific information from the document when possible."

/-- The Q&A prompt of `ask_document`, over the (possibly 8000-truncated)
document text and the literal question. -/
def askPrompt (docText question : String) : String :=
  "Based on the following document, please answer the user's question.\nIf the answer is not in the document, please say so clearly.\n\nDocument content:\n" ++
    docText ++ "\n\nUser's question: " ++ question ++
    "\n\nPlease provide a clear, accurate answer based on the document content."

/-- The `ask_document` view (views.py lines 807-926).  In the source, all
persistence (the two `ChatMessage` rows and both `add_to_history` calls)
sits inside the `Chat.DoesNotExist` handler (lines 880-912), so a call
whose conversation already exists records nothing; the embedding preserves
that indentation. -/
def askDocumentStep (st : ServerState) (owner documentId : Nat) (question0 chatId0 : String)
    (apiOk : Bool) (gateway : List Turn → String) (freshId : String) :
    ServerState × List (List Turn) × AskResponse :=
  let question := pyStrip question0
  if documentId = 0 then (st, [], AskResponse.badRequest "document_id is required")
  else if question = "" then (st, [], AskResponse.badRequest "question is required")
  else
    match st.db.docs.find? (fun d => decide (d.id = documentId ∧ d.owner = owner)) with
    | none => (st, [], AskResponse.notFound "No Document matches the given query.")
    | some document =>
      if document.extracted_text = "" then
        (st, [], AskResponse.badRequest "No text extracted from document")
      else if apiOk = false then (st, [], AskResponse.serverError apiKeyErrorMsg)
      else
        let docText :=
          if 8000 < pyLen document.extracted_text then
            pyTake document.extracted_text 8000 ++ lengthTruncMarker
          else document.extracted_text
        let msgs := [Turn.mk "system" askSystemPrompt,
          Turn.mk "user" (askPrompt docText question)]
        let answer := gateway msgs
        let chatId := if chatId0 ≠ "" then chatId0 else freshId
        let db' :=
          match findChat st.db chatId owner with
          | some _ => st.db
          | none =>
            let t := pyTake question 50
            let title := if t = "" then "Document Q&A: " ++ document.filename else t
            let db1 := createChat st.db chatId owner title
            let db2 := createMessage db1 chatId owner "user" question
            let db3 := createMessage db2 chatId owner "assistant" answer
            let db4 := addToHistory db3 chatId owner "user" question
            addToHistory db4 chatId owner "assistant" answer
        (ServerState.mk st.session db', [msgs],
          AskResponse.success answer document.id document.filename question chatId)

def docQ : DocumentRec := DocumentRec.mk 5 7 "f.txt" "hello doc"

def chatC1 : String := "c1"

def chatC2 : String := "c2"

def convC1 : Conversation := Conversation.mk "c1" 1 7 "T" []

def stAsk : ServerState := ServerState.mk [] (Db.mk [convC1] [] [docQ])

def questionQ : String := "What is this?"

/-- C1 (code bug): at a state whose `(chat_id, owner)` conversation already
exists, a successful `ask_document` call returns the answer but appends
zero turns — the whole state is unchanged — while the same call against a
fresh chat id appends the question/answer pair to both stores.  The
persistence block is indented inside the `Chat.DoesNotExist` handler. -/
theorem ask_document_existing_conversation_records_nothing :
    (askDocumentStep stAsk 7 5 questionQ chatC1 true gwConst freshA).1 = stAsk ∧
    ((askDocumentStep stAsk 7 5 questionQ chatC1 true gwConst freshA).1).db.msgs = [] ∧
    (askDocumentStep stAsk 7 5 questionQ chatC1 true gwConst freshA).2.2 =
      AskResponse.success "OK" 5 "f.txt" (pyStrip questionQ) chatC1 ∧
    ((askDocumentStep stAsk 7 5 questionQ chatC2 true gwConst freshA).1).db.msgs =
      [MsgRecord.mk chatC2 7 "user" (pyStrip questionQ),
        MsgRecord.mk chatC2 7 "assistant" "OK"] := by
  refine ⟨?_, ?_, ?_, ?_⟩ <;> rfl

/-- `delete_document` (views.py lines 977-1004): look up the owner's
document, purge it from every key of the session cache, and delete the
database row.  Returns whether a document was found. -/
def deleteDocumentStep (st : ServerState) (owner documentId : Nat) : ServerState × Bool :=
  match st.db.docs.find? (fun d => decide (d.id = documentId ∧ d.owner = owner)) with
  | none => (st, false)
  | some document =>
    (ServerState.mk (purgeDocument st.session document.id)
      (Db.mk st.db.chats st.db.msgs
        (st.db.docs.filter (fun d => decide (d.id ≠ document.id)))), true)

/-- C8: after purging a document id, no key's list contains an entry with
that id (so any subsequent `get` no longer includes it), every surviving
key has a non-empty list, and `delete_document` applies exactly this purge
to the session cache when the document is found. -/
theorem delete_document_purges_cache (cd : ChatDocuments) (docId : Nat) (k : String) :
    (lookupKey (purgeDocument cd docId) k).all (fun e => e.id != docId) = true ∧
    (purgeDocument cd docId).all (fun p => !p.2.isEmpty) = true ∧
    (∀ (st : ServerState) (owner : Nat) (document : DocumentRec),
      st.db.docs.find? (fun d => decide (d.id = docId ∧ d.owner = owner)) = some document →
      ((deleteDocumentStep st owner docId).1).session = purgeDocument st.session document.id) := by
  refine ⟨?_, ?_, ?_⟩
  · cases hfind : (purgeDocument cd docId).find? (fun p => decide (p.1 = k)) with
    | none =>
      unfold lookupKey
      rw [hfind]
      rfl
    | some pr =>
      unfold lookupKey
      rw [hfind]
      have hmem := List.mem_of_find?_eq_some hfind
      unfold purgeDocument at hmem
      rcases List.mem_filterMap.mp hmem with ⟨a, _, hfa⟩
      dsimp only at hfa
      by_cases he : (a.2.filter (fun d => decide (d.id ≠ docId))).isEmpty
      · rw [if_pos he] at hfa
        cases hfa
      · rw [if_neg he] at hfa
        injection hfa with h2
        subst h2
        rw [List.all_eq_true]
        intro e he'
        have h3 := (List.mem_filter.mp he').2
        simp at h3 ⊢
        exact h3
  · rw [List.all_eq_true]
    intro p hp
    unfold purgeDocument at hp
    rcases List.mem_filterMap.mp hp with ⟨a, _, hfa⟩
    dsimp only at hfa
    by_cases he : (a.2.filter (fun d => decide (d.id ≠ docId))).isEmpty
    · rw [if_pos he] at hfa
      cases hfa
    · rw [if_neg he] at hfa
      injection hfa with h2
      subst h2
      dsimp only
      cases hb : (List.filter (fun d => decide (d.id ≠ docId)) a.2).isEmpty with
      | false => rfl
      | true => exact absurd hb he
  · intro st owner document hfind
    unfold deleteDocumentStep
    rw [hfind]

theorem delete_document_purges_cache_witness :
    (lookupKey (purgeDocument [(cacheKeyA, [e1, e2]), (chatKeyB, [e1])] 1) cacheKeyA).all
      (fun e => e.id != 1) = true :=
  (delete_document_purges_cache [(cacheKeyA, [e1, e2]), (chatKeyB, [e1])] 1 cacheKeyA).1

end CloneBot
